import Mathlib

/-!
Shallow embedding of `src/script.js` (portfolio website UI glue code).

DOM elements are modelled by their class lists (`List String`); a missing
element is `Option.none`, and a handler that would dereference a missing
element (a TypeError in JS) returns `none`. Scroll offsets and pixel
coordinates are integers. Timer-driven behaviour (debounce, deferred
style resets) is modelled by explicit event lists and fire times.
-/

/-- A DOM element, reduced to the state this script reads and writes:
its CSS class list. -/
structure Elem where
  classes : List String
deriving Repr, DecidableEq

/-- `el.classList.add(c)`: appends the token when absent (DOMTokenList
keeps tokens unique). -/
def addClass (cls : List String) (c : String) : List String :=
  if c ∈ cls then cls else cls ++ [c]

/-- `el.classList.remove(c)`: removes the token. -/
def removeClass (cls : List String) (c : String) : List String :=
  cls.filter (fun x => x ≠ c)

theorem mem_addClass (cls : List String) (a c : String) :
    a ∈ addClass cls c ↔ a ∈ cls ∨ a = c := by
  unfold addClass
  by_cases h : c ∈ cls
  · simp only [if_pos h]
    constructor
    · exact fun ha => Or.inl ha
    · rintro (ha | rfl)
      · exact ha
      · exact h
  · simp [if_neg h, List.mem_append]

theorem mem_removeClass (cls : List String) (a c : String) :
    a ∈ removeClass cls c ↔ a ∈ cls ∧ a ≠ c := by
  unfold removeClass
  simp [List.mem_filter]

theorem not_mem_removeClass_self (cls : List String) (c : String) :
    c ∉ removeClass cls c := by
  simp [mem_removeClass]

/-! ## Header scroll effect (`handleHeaderScroll`, script.js lines 77-88)

```js
function handleHeaderScroll() {
  const header = document.getElementById('header');
  const scrollY = window.pageYOffset;
  if (scrollY >= 50) { header.classList.add('blur-header'); }
  else { header.classList.remove('blur-header'); }
}
```
`header` is dereferenced without an existence check: with no `#header`
element the handler throws, modelled by the `none` branch. -/

def handleHeaderScroll (header : Option Elem) (scrollY : Nat) : Option Elem :=
  match header with
  | none => none
  | some h =>
      some ⟨if 50 ≤ scrollY then addClass h.classes "blur-header"
            else removeClass h.classes "blur-header"⟩

/-! ## Active navigation link (`highlightActiveNavLink`, script.js lines 96-112)

Per section, with `scrollY = window.pageYOffset + 200` and
`sectionTop = section.offsetTop - 200`:
```js
if (scrollY > sectionTop && scrollY <= sectionTop + sectionHeight) {
  navLink?.classList.add('active-link');
} else {
  navLink?.classList.remove('active-link');
}
```
Modelled for one section and its matching nav link. -/

def highlightSectionLink (pageY top height : Int) (link : List String) :
    List String :=
  let scrollY := pageY + 200
  let sectionTop := top - 200
  if sectionTop < scrollY ∧ scrollY ≤ sectionTop + height then
    addClass link "active-link"
  else
    removeClass link "active-link"

theorem mem_highlightSectionLink (pageY top height : Int) (link : List String) :
    "active-link" ∈ highlightSectionLink pageY top height link ↔
      (top - 200 < pageY + 200 ∧ pageY + 200 ≤ top - 200 + height) := by
  unfold highlightSectionLink
  by_cases h : top - 200 < pageY + 200 ∧ pageY + 200 ≤ top - 200 + height
  · simp only [if_pos h, mem_addClass]
    exact ⟨fun _ => h, fun _ => Or.inr trivial⟩
  · simp only [if_neg h]
    constructor
    · intro hm
      exact absurd (mem_removeClass _ _ _ |>.mp hm).2 (by simp)
    · intro hc
      exact absurd hc h

/-- C6: For every scroll offset, after handleHeaderScroll runs, the header
carries the "blurred" class (`blur-header`) if the offset is at least 50 and
does not carry it if the offset is below 50. -/
theorem header_blur_iff (h : Elem) (y : Nat) (h' : Elem)
    (hrun : handleHeaderScroll (some h) y = some h') :
    "blur-header" ∈ h'.classes ↔ 50 ≤ y := by
  unfold handleHeaderScroll at hrun
  by_cases hy : 50 ≤ y
  · simp only [if_pos hy] at hrun
    cases hrun
    simp [mem_addClass, hy]
  · simp only [if_neg hy] at hrun
    cases hrun
    constructor
    · intro hm
      exact absurd (mem_removeClass _ _ _ |>.mp hm).2 (by simp)
    · intro hc
      exact absurd hc hy

/-- C6 witness: at offset 50 on a header with no classes, the blur class is
present. -/
theorem header_blur_iff_witness :
    "blur-header" ∈ (Elem.mk ["blur-header"]).classes ∧ 50 ≤ 50 :=
  ⟨(header_blur_iff ⟨[]⟩ 50 ⟨["blur-header"]⟩ rfl).mpr (by norm_num), by norm_num⟩

/-- C1 counterexample: at pageYOffset 0 for a section with top 400 and
height 100, the spec interval `[top-200, top-200+height)` contains
`scrollY + 200 = 200`, yet the code does not mark the link active (the
code condition is strict at the lower endpoint). -/
theorem active_link_claim_false :
    ((400 : Int) - 200 ≤ 0 + 200 ∧ (0 : Int) + 200 < 400 - 200 + 100) ∧
      "active-link" ∉ highlightSectionLink 0 400 100 [] := by
  constructor
  · norm_num
  · rw [mem_highlightSectionLink]
    norm_num

/-- C1 amended: after highlightActiveNavLink runs, the navigation link
carries the active mark iff `scrollY + 200` lies in the half-open interval
`(top-200, top-200+height]` — open below, closed above. -/
theorem active_link_iff (pageY top height : Int) (link : List String) :
    "active-link" ∈ highlightSectionLink pageY top height link ↔
      (top - 200 < pageY + 200 ∧ pageY + 200 ≤ top - 200 + height) :=
  mem_highlightSectionLink pageY top height link

/-! ## Navigation handlers and DOM-existence guards (script.js lines 9-69, 443-453)

The script looks up `nav-menu`, `nav-toggle`, `nav-close` once. Listener
attachment on the toggle and close buttons is guarded (`if (navToggle)`,
`if (navClose)`), but every handler body dereferences `navMenu` with no
check, and the document-level keydown handler reads
`navMenu.classList.contains('show-menu')` unguarded. `smoothScrollToSection`
reads `document.querySelector('.header').offsetHeight` before its
`if (targetSection)` guard. A `none` result models the thrown TypeError. -/

/-- The nav-related page state: each element is present or absent. -/
structure NavState where
  navMenu : Option Elem
deriving Repr, DecidableEq

/-- `if (navToggle) { navToggle.addEventListener(...) }` — whether the
toggle click listener is attached at startup (lines 14-18). -/
def navToggleAttached (navToggle : Option Elem) : Bool :=
  navToggle.isSome

/-- `if (navClose) { navClose.addEventListener(...) }` — whether the close
click listener is attached at startup (lines 21-25). -/
def navCloseAttached (navClose : Option Elem) : Bool :=
  navClose.isSome

/-- Body of the toggle click handler: `navMenu.classList.add('show-menu')`
(line 16); faults when `navMenu` is absent. -/
def navToggleClick (st : NavState) : Option NavState :=
  match st.navMenu with
  | none => none
  | some m => some ⟨some ⟨addClass m.classes "show-menu"⟩⟩

/-- Body of the close click handler: `navMenu.classList.remove('show-menu')`
(line 23); faults when `navMenu` is absent. -/
def navCloseClick (st : NavState) : Option NavState :=
  match st.navMenu with
  | none => none
  | some m => some ⟨some ⟨removeClass m.classes "show-menu"⟩⟩

/-- Document keydown handler (lines 443-453). On Escape the code evaluates
`navMenu.classList.contains('show-menu')` before any existence check, so a
missing menu faults; for other keys `navMenu` is never dereferenced
(short-circuit of `&&`). The Enter branch only touches `e.target` and is
state-neutral here. -/
def keydownHandler (key : String) (st : NavState) : Option NavState :=
  if key = "Escape" then
    match st.navMenu with
    | none => none
    | some m =>
        if m.classes.contains "show-menu" then
          some ⟨some ⟨removeClass m.classes "show-menu"⟩⟩
        else
          some st
  else
    some st

/-- `smoothScrollToSection` (lines 45-57): `headerEl` is the `.header`
element with its offsetHeight, `target` the resolved target section with
its offsetTop. The header is dereferenced before the target null-check,
so a missing header faults even when the target is also missing. Result
`some none` = no scroll performed, `some (some y)` = scrollTo y. -/
def smoothScrollToSection (target : Option Int) (headerEl : Option Int) :
    Option (Option Int) :=
  match headerEl with
  | none => none
  | some headerHeight =>
      match target with
      | none => some none
      | some sectionTop => some (some (sectionTop - headerHeight))

/-- ContactForm constructor guard (lines 259-264): listeners are attached
only when `#contact-form` exists. -/
def contactFormAttached (form : Option Elem) : Bool :=
  form.isSome

/-- Skill-bar observer guard (lines 231-233): the observer is registered
only when `.about__skills` exists. -/
def skillObserverAttached (skillSection : Option Elem) : Bool :=
  skillSection.isSome

/-- C3 counterexample: with no `#nav-menu` element, pressing Escape makes
the document keydown handler dereference the missing menu and fault — so
not every handler dereferences elements only after an existence check. -/
theorem guarded_handlers_claim_false :
    keydownHandler "Escape" ⟨none⟩ = none :=
  rfl

/-- C3 amended: listener attachment for the nav toggle, nav close, contact
form and skill observer is guarded by existence checks, and the keydown
handler ignores other keys without dereferencing the menu; but the keydown
Escape branch, handleHeaderScroll, smoothScrollToSection, and the
toggle/close click bodies dereference `navMenu` or the header without a
check and fault when that element is missing. -/
theorem guarded_handlers_amended :
    (navToggleAttached none = false ∧ navCloseAttached none = false ∧
      contactFormAttached none = false ∧ skillObserverAttached none = false) ∧
    (∀ (key : String) (st : NavState), key ≠ "Escape" →
      keydownHandler key st = some st) ∧
    (∀ st : NavState, st.navMenu = none → keydownHandler "Escape" st = none) ∧
    (∀ y : Nat, handleHeaderScroll none y = none) ∧
    (∀ target : Option Int, smoothScrollToSection target none = none) ∧
    (∀ st : NavState, st.navMenu = none →
      navToggleClick st = none ∧ navCloseClick st = none) := by
  refine ⟨⟨rfl, rfl, rfl, rfl⟩, ?_, ?_, ?_, ?_, ?_⟩
  · intro key st hk
    unfold keydownHandler
    simp [hk]
  · intro st hm
    unfold keydownHandler
    simp [hm]
  · intro y
    rfl
  · intro target
    rfl
  · intro st hm
    unfold navToggleClick navCloseClick
    simp [hm]

/-- C3 witness: the amended statement instantiated at concrete inputs — a
non-Escape key leaves the state untouched, and the Escape branch on a
menu-less page faults. -/
theorem guarded_handlers_amended_witness :
    keydownHandler "a" ⟨none⟩ = some ⟨none⟩ ∧
      keydownHandler "Escape" ⟨none⟩ = none ∧
      handleHeaderScroll none 0 = none ∧
      smoothScrollToSection (some 300) none = none ∧
      navToggleClick ⟨none⟩ = none :=
  ⟨guarded_handlers_amended.2.1 "a" ⟨none⟩ (by decide),
   guarded_handlers_amended.2.2.1 ⟨none⟩ rfl,
   guarded_handlers_amended.2.2.2.1 0,
   guarded_handlers_amended.2.2.2.2.1 (some 300),
   (guarded_handlers_amended.2.2.2.2.2 ⟨none⟩ rfl).1⟩

/-! ## Fade-in scroll animations (`ScrollAnimations.createFadeInObserver`,
script.js lines 198-213)

```js
entries.forEach(entry => {
  if (entry.isIntersecting) {
    entry.target.classList.add('animate-on-scroll', 'animated');
  }
});
```
No branch ever removes `animated`. An observed element receives a stream of
intersection callbacks, modelled as a list of `isIntersecting` booleans. -/

def fadeInStep (cls : List String) (isIntersecting : Bool) : List String :=
  if isIntersecting then
    addClass (addClass cls "animate-on-scroll") "animated"
  else
    cls

def fadeInRun (cls : List String) (events : List Bool) : List String :=
  events.foldl fadeInStep cls

theorem animated_mem_fadeInStep (cls : List String) (b : Bool)
    (h : "animated" ∈ cls) : "animated" ∈ fadeInStep cls b := by
  unfold fadeInStep
  cases b
  · simpa using h
  · simp [mem_addClass, h]

theorem animated_mem_fadeInRun (cls : List String) (events : List Bool)
    (h : "animated" ∈ cls) : "animated" ∈ fadeInRun cls events := by
  induction events generalizing cls with
  | nil => exact h
  | cons b rest ih => exact ih _ (animated_mem_fadeInStep cls b h)

/-- C9: once a fade element is tagged `animated` by a qualifying
intersection, no later sequence of intersection events ever removes the
tag: if some event in `evs` qualifies, the tag is present after `evs` and
still present after any further events `more`. -/
theorem animated_one_shot (cls : List String) (evs more : List Bool)
    (hq : true ∈ evs) :
    "animated" ∈ fadeInRun cls evs ∧
      "animated" ∈ fadeInRun cls (evs ++ more) := by
  have hstep : "animated" ∈ fadeInRun cls evs := by
    induction evs generalizing cls with
    | nil => cases hq
    | cons b rest ih =>
        rcases List.mem_cons.mp hq with hb | hrest
        · subst hb
          have : "animated" ∈ fadeInStep cls true := by
            unfold fadeInStep
            simp [mem_addClass]
          exact animated_mem_fadeInRun _ rest this
        · exact ih _ hrest
  refine ⟨hstep, ?_⟩
  unfold fadeInRun
  rw [List.foldl_append]
  exact animated_mem_fadeInRun _ more hstep

/-- C9 witness: an element that qualifies once (second event) is tagged and
remains tagged across a later exit and re-entry. -/
theorem animated_one_shot_witness :
    "animated" ∈ fadeInRun [] [false, true] ∧
      "animated" ∈ fadeInRun [] ([false, true] ++ [false, false]) :=
  animated_one_shot [] [false, true] [false, false] (by decide)

/-! ## Project filter (`ProjectFilter`, script.js lines 122-169)

```js
updateActiveButton(activeBtn) {
  this.filterButtons.forEach(btn => btn.classList.remove('filter__btn--active'));
  activeBtn.classList.add('filter__btn--active');
}
filterProjects(filter) {
  this.projectCards.forEach(card => {
    const category = card.getAttribute('data-category');
    const shouldShow = filter === 'all' || category === filter;
    if (shouldShow) { card.classList.remove('hide'); setTimeout(..., 100); }
    else { card.classList.add('hide'); }
  });
}
```
Buttons are modelled by their class lists in document order; the clicked
button by its index. Cards carry their class list and `data-category`; the
Bool in the result records whether the 100 ms deferred style reset
(translateY(0), opacity 1) was scheduled for that card. -/

structure Card where
  classes : List String
  category : String
deriving Repr, DecidableEq

def filterCard (filter : String) (card : Card) : Card × Bool :=
  if filter = "all" ∨ card.category = filter then
    (⟨removeClass card.classes "hide", card.category⟩, true)
  else
    (⟨addClass card.classes "hide", card.category⟩, false)

def filterProjects (filter : String) (cards : List Card) : List (Card × Bool) :=
  cards.map (filterCard filter)

/-- `activeBtn.classList.add(...)` applied at index `i` of the button
collection. -/
def setActive : List (List String) → Nat → List (List String)
  | [], _ => []
  | b :: rest, 0 => addClass b "filter__btn--active" :: rest
  | b :: rest, n + 1 => b :: setActive rest n

/-- `ProjectFilter.updateActiveButton`: deactivate every button, then
activate the clicked one (index `i`). -/
def updateActiveButton (btns : List (List String)) (i : Nat) :
    List (List String) :=
  setActive (btns.map (fun b => removeClass b "filter__btn--active")) i

/-- A sequence of clicks on buttons given by their indices. -/
def clickSeq (btns : List (List String)) (ks : List Nat) :
    List (List String) :=
  ks.foldl updateActiveButton btns

theorem setActive_getElem? (l : List (List String)) (i j : Nat) :
    (setActive l i)[j]? =
      if j = i then
        (l[j]?).map (fun b => addClass b "filter__btn--active")
      else l[j]? := by
  induction l generalizing i j with
  | nil => simp [setActive]
  | cons b rest ih =>
      cases i with
      | zero =>
          cases j with
          | zero => simp [setActive]
          | succ m => simp [setActive]
      | succ n =>
          cases j with
          | zero => simp [setActive]
          | succ m => simpa [setActive] using ih n m

theorem length_setActive (l : List (List String)) (i : Nat) :
    (setActive l i).length = l.length := by
  induction l generalizing i with
  | nil => simp [setActive]
  | cons b rest ih =>
      cases i with
      | zero => simp [setActive]
      | succ n => simp [setActive, ih n]

theorem length_updateActiveButton (btns : List (List String)) (i : Nat) :
    (updateActiveButton btns i).length = btns.length := by
  unfold updateActiveButton
  rw [length_setActive, List.length_map]

theorem length_clickSeq (btns : List (List String)) (ks : List Nat) :
    (clickSeq btns ks).length = btns.length := by
  induction ks generalizing btns with
  | nil => rfl
  | cons k rest ih =>
      show (clickSeq (updateActiveButton btns k) rest).length = _
      rw [ih, length_updateActiveButton]

theorem mem_updateActiveButton (btns : List (List String)) (i j : Nat)
    (b : List String) (hb : (updateActiveButton btns i)[j]? = some b) :
    "filter__btn--active" ∈ b ↔ j = i := by
  unfold updateActiveButton at hb
  rw [setActive_getElem?] at hb
  by_cases hji : j = i
  · rw [if_pos hji, List.getElem?_map] at hb
    rcases Option.map_eq_some'.mp hb with ⟨b0, hb0, rfl⟩
    simp [mem_addClass, hji]
  · rw [if_neg hji, List.getElem?_map] at hb
    rcases Option.map_eq_some'.mp hb with ⟨b0, _, rfl⟩
    constructor
    · intro hm
      exact absurd (mem_removeClass _ _ _ |>.mp hm).2 (by simp)
    · intro h
      exact absurd h hji

theorem countP_cleared (l : List (List String)) :
    (l.map (fun b => removeClass b "filter__btn--active")).countP
      (fun b => decide ("filter__btn--active" ∈ b)) = 0 := by
  induction l with
  | nil => rfl
  | cons b rest ih =>
      rw [List.map_cons, List.countP_cons, ih]
      simp [not_mem_removeClass_self]

theorem countP_updateActiveButton (btns : List (List String)) (i : Nat)
    (hi : i < btns.length) :
    (updateActiveButton btns i).countP
      (fun b => decide ("filter__btn--active" ∈ b)) = 1 := by
  induction btns generalizing i with
  | nil => exact absurd hi (by simp)
  | cons b rest ih =>
      cases i with
      | zero =>
          show ((addClass (removeClass b _) _ ::
              rest.map (fun x => removeClass x _)).countP _) = 1
          rw [List.countP_cons, countP_cleared]
          simp [mem_addClass]
      | succ n =>
          have hn : n < rest.length := Nat.lt_of_succ_lt_succ (by simpa using hi)
          show ((removeClass b _ :: setActive (rest.map _) n).countP _) = 1
          rw [List.countP_cons]
          have : (setActive (rest.map (fun x =>
              removeClass x "filter__btn--active")) n).countP
              (fun x => decide ("filter__btn--active" ∈ x)) = 1 := ih n hn
          rw [this]
          simp [not_mem_removeClass_self]

/-- C8: after any sequence of filter-button clicks ending with a click on
button `i`, exactly one button carries the active mark, and a button at
position `j` carries it iff `j = i`. -/
theorem filter_active_exclusive (btns : List (List String)) (ks : List Nat)
    (i : Nat) (hi : i < btns.length) :
    (clickSeq btns (ks ++ [i])).countP
        (fun b => decide ("filter__btn--active" ∈ b)) = 1 ∧
      ∀ (j : Nat) (b : List String),
        (clickSeq btns (ks ++ [i]))[j]? = some b →
          ("filter__btn--active" ∈ b ↔ j = i) := by
  have hsplit : clickSeq btns (ks ++ [i]) =
      updateActiveButton (clickSeq btns ks) i := by
    unfold clickSeq
    rw [List.foldl_append]
    rfl
  have hi' : i < (clickSeq btns ks).length := by
    rw [length_clickSeq]
    exact hi
  constructor
  · rw [hsplit]
    exact countP_updateActiveButton _ i hi'
  · intro j b hb
    rw [hsplit] at hb
    exact mem_updateActiveButton _ i j b hb

/-- C8 witness: two buttons, clicks on button 0 then button 1 — exactly
one button is active afterwards, namely button 1. -/
theorem filter_active_exclusive_witness :
    (clickSeq [["filter__btn--active"], []] ([0] ++ [1])).countP
        (fun b => decide ("filter__btn--active" ∈ b)) = 1 ∧
      ("filter__btn--active" ∈ ["filter__btn--active"] ↔ 1 = 1) :=
  ⟨(filter_active_exclusive [["filter__btn--active"], []] [0] 1 (by decide)).1,
   (filter_active_exclusive [["filter__btn--active"], []] [0] 1 (by decide)).2
      1 ["filter__btn--active"] (by decide)⟩

/-- C7: after filterProjects runs, a card is shown (hide class absent) iff
the filter is the sentinel "all" or equals the cards category, hidden
otherwise, and the 100 ms deferred style reset is scheduled exactly for
the shown cards. -/
theorem project_filter_visibility (filter : String) (cards : List Card)
    (p : Card × Bool) (hp : p ∈ filterProjects filter cards) :
    ("hide" ∉ p.1.classes ↔ (filter = "all" ∨ p.1.category = filter)) ∧
      (p.2 = true ↔ (filter = "all" ∨ p.1.category = filter)) := by
  rcases List.mem_map.mp hp with ⟨c, _, rfl⟩
  unfold filterCard
  by_cases hc : filter = "all" ∨ c.category = filter
  · rw [if_pos hc]
    refine ⟨⟨fun _ => hc, fun _ hm => ?_⟩, by simpa using hc⟩
    exact absurd (mem_removeClass _ _ _ |>.mp hm).2 (by simp)
  · rw [if_neg hc]
    constructor
    · constructor
      · intro hno
        exact absurd (mem_addClass _ _ _ |>.mpr (Or.inr rfl)) hno
      · intro hc'
        exact absurd hc' hc
    · simpa using hc

/-- C7 witness: filtering with value "web" shows a card whose category is
"web" (hide class removed, reset scheduled). -/
theorem project_filter_visibility_witness :
    ("hide" ∉ (Card.mk [] "web").classes ↔
        ("web" = "all" ∨ (Card.mk [] "web").category = "web")) ∧
      (true = true ↔ ("web" = "all" ∨ (Card.mk [] "web").category = "web")) :=
  project_filter_visibility "web" [⟨["hide"], "web"⟩] (⟨[], "web"⟩, true)
    (by decide)

/-! ## Debounce utility (`debounce`, script.js lines 419-429)

```js
function debounce(func, wait) {
  let timeout;
  return function executedFunction(...args) {
    const later = () => { clearTimeout(timeout); func(...args); };
    clearTimeout(timeout);
    timeout = setTimeout(later, wait);
  };
}
```
The closure state is the single pending timer: `none`, or
`some (fireTime, args)`. Each call at time `t` clears the pending timer and
schedules `later` at `t + wait` with the current arguments. A pending timer
whose fire time has been reached before the next call executes `func`; the
inner `clearTimeout` in `later` clears the already-fired handle (a no-op).
`debounceRun` replays a time-ordered list of calls and returns the list of
`(fireTime, args)` at which `func` actually executes. -/

def debounceRun {α : Type} (wait : Nat) :
    Option (Nat × α) → List (Nat × α) → List (Nat × α)
  | none, [] => []
  | some p, [] => [p]
  | none, (t, a) :: rest => debounceRun wait (some (t + wait, a)) rest
  | some (ft, fa), (t, a) :: rest =>
      if ft ≤ t then
        (ft, fa) :: debounceRun wait (some (t + wait, a)) rest
      else
        debounceRun wait (some (t + wait, a)) rest

/-- The executions of `debounce(func, wait)` over a time-ordered list of
calls, starting with no pending timer. -/
def debounce {α : Type} (wait : Nat) (calls : List (Nat × α)) :
    List (Nat × α) :=
  debounceRun wait none calls

theorem debounceRun_burst {α : Type} (wait : Nat) (t : Nat) (a : α)
    (calls : List (Nat × α))
    (hchain : List.Chain' (fun p q => q.1 < p.1 + wait) ((t, a) :: calls)) :
    debounceRun wait (some (t + wait, a)) calls =
      [((((t, a) :: calls).getLast (by simp)).1 + wait,
        (((t, a) :: calls).getLast (by simp)).2)] := by
  induction calls generalizing t a with
  | nil => simp [debounceRun]
  | cons q rest ih =>
      obtain ⟨t₂, a₂⟩ := q
      have hgap : t₂ < t + wait := (List.chain'_cons.mp hchain).1
      have hchain' : List.Chain' (fun p q => q.1 < p.1 + wait)
          ((t₂, a₂) :: rest) := (List.chain'_cons.mp hchain).2
      rw [debounceRun, if_neg (Nat.not_le.mpr hgap), ih t₂ a₂ hchain']
      simp

/-- C2: over a burst of calls — a nonempty, time-ordered list in which each
call arrives strictly within `wait` of its predecessor — the wrapped
function executes exactly once, at the last call time plus `wait`, with the
last call arguments; every earlier pending timer is cancelled. -/
theorem debounce_trailing_edge {α : Type} (wait : Nat)
    (calls : List (Nat × α)) (hne : calls ≠ [])
    (hchain : List.Chain' (fun p q => q.1 < p.1 + wait) calls) :
    debounce wait calls =
      [((calls.getLast hne).1 + wait, (calls.getLast hne).2)] := by
  obtain ⟨⟨t, a⟩, rest, rfl⟩ : ∃ p l, calls = p :: l := by
    cases calls with
    | nil => exact absurd rfl hne
    | cons p l => exact ⟨p, l, rfl⟩
  unfold debounce
  rw [debounceRun]
  exact debounceRun_burst wait t a rest hchain

/-- C2 witness: calls at t = 0, 5, 10 ms with wait = 16 ms fire exactly
once, at t = 26 ms, with the arguments of the last call. -/
theorem debounce_trailing_edge_witness :
    debounce 16 [(0, 1), (5, 2), (10, 3)] = [(26, 3)] :=
  debounce_trailing_edge 16 [(0, 1), (5, 2), (10, 3)] (by decide)
    (by norm_num [List.chain'_cons, List.chain'_singleton])

/-! ## Contact form (`ContactForm`, script.js lines 253-406)

Validation iterates the `[required]` fields: empty-after-trim fields get
"This field is required"; otherwise email-typed fields failing
`/^[^\s@]+@[^\s@]+\.[^\s@]+$/` get "Please enter a valid email address";
`showFieldError` appends a visible inline error div under the field.
`handleSubmit` calls `submitForm()` only when `validateForm()` returns
true. `submitForm` captures the button label, enters a disabled loading
state, awaits `new Promise(resolve => setTimeout(resolve, 2000))`, shows a
success notification and resets the form, with a catch branch for errors
and a finally block restoring the label and enabled state. -/

/-- JS `\s` for the characters this model distinguishes. -/
def isJsSpace (c : Char) : Bool :=
  c = ' ' || c = '\t' || c = '\n' || c = '\r' || c = '\x0b' || c = '\x0c'

/-- `String.prototype.trim()`. -/
def jsTrim (s : String) : String :=
  ⟨((s.data.dropWhile isJsSpace).reverse.dropWhile isJsSpace).reverse⟩

/-- A character matched by the regex class `[^\s@]`. -/
def okChar (c : Char) : Bool :=
  !isJsSpace c && c != '@'

/-- `[^\s@]+` to the end of the string. -/
def matchAPlus (cs : List Char) : Bool :=
  !cs.isEmpty && cs.all okChar

/-- After one domain character: `[^\s@]*\.[^\s@]+` to the end, with the
regex engine's backtracking expressed by the disjunction. -/
def matchDotTail : List Char → Bool
  | [] => false
  | c :: rest => (c = '.' && matchAPlus rest) || (okChar c && matchDotTail rest)

/-- `[^\s@]+\.[^\s@]+` to the end of the string. -/
def matchDomain : List Char → Bool
  | [] => false
  | c :: rest => okChar c && matchDotTail rest

/-- After one local-part character: `[^\s@]*@[^\s@]+\.[^\s@]+` to the end. -/
def matchAfterLocal : List Char → Bool
  | [] => false
  | c :: rest =>
      (c = '@' && matchDomain rest) || (okChar c && matchAfterLocal rest)

/-- `ContactForm.isValidEmail`: `/^[^\s@]+@[^\s@]+\.[^\s@]+$/.test(email)`
(lines 293-296). -/
def isValidEmail (s : String) : Bool :=
  match s.data with
  | [] => false
  | c :: rest => okChar c && matchAfterLocal rest

/-- A form input as validation sees it: its value, its `type` attribute,
and whether it carries `required`. -/
structure FormField where
  value : String
  ftype : String
  required : Bool
deriving Repr, DecidableEq

/-- The inline error `showFieldError` appends for a field during
`validateForm` (lines 278-288), if any. -/
def fieldError (f : FormField) : Option String :=
  if (jsTrim f.value).isEmpty = true then some "This field is required"
  else if f.ftype = "email" ∧ isValidEmail f.value = false then
    some "Please enter a valid email address"
  else none

/-- `ContactForm.validateForm` (lines 274-291): every `[required]` field
must pass. -/
def validateForm (fields : List FormField) : Bool :=
  (fields.filter (fun f => f.required)).all (fun f => (fieldError f).isNone)

/-- `form.reset()`: field values return to their defaults (empty). -/
def resetFields (fields : List FormField) : List FormField :=
  fields.map (fun f => { f with value := "" })

/-- Modelled from the source, line 350:
`await new Promise(resolve => setTimeout(resolve, 2000))` — the executor
only ever calls `resolve`, so the awaited promise always resolves (after
the 2000 ms delay) and never rejects. -/
def simulatedSubmission : Except String Unit := Except.ok ()

/-- The submit control: its innerHTML label and disabled flag. -/
structure SubmitBtn where
  label : String
  disabled : Bool
deriving Repr, DecidableEq

/-- The transient notification type shown after submission. -/
inductive Notification where
  | success
  | failure
deriving Repr, DecidableEq

/-- `ContactForm.submitForm` (lines 340-363), with the try-block outcome
`body` explicit. The original label is captured first, the control enters
the disabled loading state, then the try block either succeeds (success
notification, form reset) or throws (error notification, form kept); the
finally block builds the restored control from the captured label in
either case. -/
def submitFormWith (body : Except String Unit) (btn : SubmitBtn)
    (fields : List FormField) : SubmitBtn × List FormField × Notification :=
  let originalText := btn.label
  let afterTry : List FormField × Notification :=
    match body with
    | Except.ok _ => (resetFields fields, Notification.success)
    | Except.error _ => (fields, Notification.failure)
  (⟨originalText, false⟩, afterTry)

/-- `ContactForm.handleSubmit` (lines 266-272): `submitForm` runs iff
`validateForm` returns true; `none` records that the submission path was
not invoked. -/
def handleSubmit (body : Except String Unit) (btn : SubmitBtn)
    (fields : List FormField) :
    Option (SubmitBtn × List FormField × Notification) :=
  if validateForm fields = true then some (submitFormWith body btn fields)
  else none

theorem fieldError_isNone (f : FormField) :
    (fieldError f).isNone = true ↔
      ((jsTrim f.value).isEmpty = false ∧
        (f.ftype = "email" → isValidEmail f.value = true)) := by
  unfold fieldError
  by_cases h1 : (jsTrim f.value).isEmpty = true
  · simp [h1]
  · by_cases h2 : f.ftype = "email" ∧ isValidEmail f.value = false
    · simp only [if_neg h1, if_pos h2]
      simp [h2.1, h2.2]
    · simp only [if_neg h1, if_neg h2]
      simp only [Option.isNone_none, true_iff]
      refine ⟨by simpa using h1, ?_⟩
      intro he
      by_contra hv
      exact h2 ⟨he, by simpa using hv⟩

theorem validateForm_iff (fields : List FormField) :
    validateForm fields = true ↔
      ∀ f ∈ fields, f.required = true → (fieldError f).isNone = true := by
  unfold validateForm
  rw [List.all_eq_true]
  constructor
  · intro h f hf hreq
    exact h f (List.mem_filter.mpr ⟨hf, by simpa using hreq⟩)
  · intro h f hf
    rcases List.mem_filter.mp hf with ⟨hmem, hreq⟩
    exact h f hmem (by simpa using hreq)

/-- C5: the submission path is invoked iff every required field is
non-empty after trimming and every required email-typed field matches the
pattern; each offending required field gets an inline error message. -/
theorem submit_path_iff_valid (body : Except String Unit) (btn : SubmitBtn)
    (fields : List FormField) :
    ((handleSubmit body btn fields).isSome = true ↔
      ∀ f ∈ fields, f.required = true →
        ((jsTrim f.value).isEmpty = false ∧
          (f.ftype = "email" → isValidEmail f.value = true))) ∧
    (∀ f ∈ fields, f.required = true →
      ((fieldError f).isSome = true ↔
        ((jsTrim f.value).isEmpty = true ∨
          (f.ftype = "email" ∧ isValidEmail f.value = false)))) := by
  constructor
  · unfold handleSubmit
    by_cases hv : validateForm fields = true
    · rw [if_pos hv]
      simp only [Option.isSome_some, true_iff]
      intro f hf hreq
      exact (fieldError_isNone f).mp ((validateForm_iff fields).mp hv f hf hreq)
    · rw [if_neg hv]
      simp only [Option.isSome_none, Bool.false_eq_true, false_iff]
      intro hall
      exact hv ((validateForm_iff fields).mpr
        (fun f hf hreq => (fieldError_isNone f).mpr (hall f hf hreq)))
  · intro f hf hreq
    have h := fieldError_isNone f
    constructor
    · intro hsome
      by_contra hno
      push_neg at hno
      have : (fieldError f).isNone = true := by
        refine h.mpr ⟨by simpa using hno.1, ?_⟩
        intro he
        by_contra hv
        exact absurd (by simpa using hv) (by simpa [he] using hno.2)
      rw [Option.isNone_iff_eq_none] at this
      rw [this] at hsome
      exact absurd hsome (by simp)
    · intro hbad
      cases hopt : fieldError f with
      | some m => simp
      | none =>
          have := h.mp (by rw [hopt]; rfl)
          rcases hbad with hb | ⟨he, hv⟩
          · rw [this.1] at hb
            exact absurd hb (by simp)
          · rw [this.2 he] at hv
            exact absurd hv (by simp)

/-- C5 witness: name Jane, email jane at x.com, message Hi — all required
fields pass, so the submission path is invoked. -/
theorem submit_path_iff_valid_witness :
    (handleSubmit simulatedSubmission ⟨"Send Message", false⟩
      [⟨"Jane", "text", true⟩, ⟨"jane@x.com", "email", true⟩,
        ⟨"Hi", "textarea", true⟩]).isSome = true :=
  (submit_path_iff_valid simulatedSubmission ⟨"Send Message", false⟩
      [⟨"Jane", "text", true⟩, ⟨"jane@x.com", "email", true⟩,
        ⟨"Hi", "textarea", true⟩]).1.mpr (by decide)

/-- C4: for every valid submission and either try-block outcome, the
finally block restores the submit control — the label returns to the value
captured before the loading state and the disabled flag is cleared. -/
theorem submit_button_restored (body : Except String Unit) (btn : SubmitBtn)
    (fields : List FormField) (hvalid : validateForm fields = true) :
    ∃ r : SubmitBtn × List FormField × Notification,
      handleSubmit body btn fields = some r ∧
        r.1.label = btn.label ∧ r.1.disabled = false := by
  refine ⟨submitFormWith body btn fields, ?_, rfl, rfl⟩
  unfold handleSubmit
  rw [if_pos hvalid]

/-- C4 witness: a failing try block on a valid submission still restores
the button. -/
theorem submit_button_restored_witness :
    ∃ r : SubmitBtn × List FormField × Notification,
      handleSubmit (Except.error "boom") ⟨"Send Message", false⟩
          [⟨"Jane", "text", true⟩] = some r ∧
        r.1.label = "Send Message" ∧ r.1.disabled = false :=
  submit_button_restored (Except.error "boom") ⟨"Send Message", false⟩
    [⟨"Jane", "text", true⟩] (by decide)

/-- C10: the simulated network step always resolves, so the catch branch
of submitForm is unreachable — every valid submission ends with the
success notification, the form reset, and the button restored. -/
theorem submit_never_fails (btn : SubmitBtn) (fields : List FormField)
    (hvalid : validateForm fields = true) :
    handleSubmit simulatedSubmission btn fields =
      some (⟨btn.label, false⟩, resetFields fields, Notification.success) := by
  unfold handleSubmit
  rw [if_pos hvalid]
  rfl

/-- C10 witness: the concrete valid submission resolves to success with
the field cleared. -/
theorem submit_never_fails_witness :
    handleSubmit simulatedSubmission ⟨"Send Message", false⟩
        [⟨"Jane", "text", true⟩] =
      some (⟨"Send Message", false⟩, [⟨"", "text", true⟩],
        Notification.success) :=
  submit_never_fails ⟨"Send Message", false⟩ [⟨"Jane", "text", true⟩]
    (by decide)
